import Mathlib

/-!
Formal model of the Lighthouse SEO "tap-targets" audit engine and of the
borderline-geometry scenarios built by its test suite
(`tap-targets-test.js`, present in the excerpt).

The audit implementation itself (`audits/seo/tap-targets.js`) is not part of
the excerpt: every definition below whose doc comment starts with
"Modelled from the spec:" is reconstructed from the specification's
description of the engine (geometry utilities, finger-overlap detector,
pair scorer, aggregator).  The scenario builders (`getBorderlineTapTargets`
and its constants) are direct translations of the test file's code.

Coordinates are modelled as rationals (the source works with JavaScript
numbers; the spec prescribes exact real-number comparison semantics with no
tolerance epsilon).
-/

/-- A client rectangle in device pixels, with the same six fields the
source's `makeClientRects` produces: `right = left + width`,
`bottom = top + height`. -/
structure Rect where
  left : ℚ
  top : ℚ
  width : ℚ
  height : ℚ
  bottom : ℚ
  right : ℚ
deriving DecidableEq, Repr

/-- Modelled from the spec: axis-aligned rectangle intersection, returning
`none` when the rectangles do not overlap or only touch at an edge
(a zero-area intersection does not count as overlap). -/
def intersect (a b : Rect) : Option Rect :=
  let l := max a.left b.left
  let t := max a.top b.top
  let r := min a.right b.right
  let m := min a.bottom b.bottom
  if l < r ∧ t < m then
    some { left := l, top := t, width := r - l, height := m - t, bottom := m, right := r }
  else
    none

/-- Modelled from the spec: `contains a b` is true when `b` lies entirely
within or exactly coincides with `a` (all four edges of `b` within or equal
to the corresponding edges of `a`). -/
def contains (a b : Rect) : Bool :=
  decide (a.left ≤ b.left ∧ a.top ≤ b.top ∧ b.right ≤ a.right ∧ b.bottom ≤ a.bottom)

/-- Modelled from the spec: the finger contact area, a square of side
`fingerSize` centered at the geometric center of `r`, independent of `r`'s
own width and height. -/
def fingerArea (fingerSize : ℚ) (r : Rect) : Rect :=
  let cx := (r.left + r.right) / 2
  let cy := (r.top + r.bottom) / 2
  { left := cx - fingerSize / 2
    top := cy - fingerSize / 2
    width := fingerSize
    height := fingerSize
    bottom := cy + fingerSize / 2
    right := cx + fingerSize / 2 }

/-- A tap target: diagnostic snippet plus the client rectangles of its
fragments, exactly the shape the test file constructs. -/
structure TapTarget where
  snippet : String
  clientRects : List Rect
deriving DecidableEq, Repr

/-- One directional failure/candidate record, with the fields the test file
reads from `auditResult.details.items[0]`: the two snippets, the
`"{width}x{height}"` size string of the subject rectangle, the subject's
own-area score, the intersection-area score, their ratio, the subject
rectangle's raw width and height, and the pass flag. -/
structure TapTargetFailure where
  tapTargetSnippet : String
  overlappingTargetSnippet : String
  size : String
  tapTargetScore : ℚ
  overlappingTargetScore : ℚ
  overlapScoreRatio : ℚ
  width : ℚ
  height : ℚ
  passed : Bool
deriving DecidableEq, Repr

/-- Renders a rational as JavaScript would render the integers appearing in
the audit's size strings (`10` rather than `10/1`); non-integers keep an
explicit denominator. -/
def ratStr (q : ℚ) : String :=
  if q.den = 1 then toString q.num else toString q.num ++ "/" ++ toString q.den

/-- The `"{width}x{height}"` human-readable size string of a rectangle. -/
def sizeStr (w h : ℚ) : String :=
  ratStr w ++ "x" ++ ratStr h

/-- Modelled from the spec: the failure cutoff for the overlap score ratio,
25% of the subject rectangle's own area. -/
def CUTOFF : ℚ := 1 / 4

/-- Modelled from the spec: detector plus scorer for one ordered rectangle
pair.  Skips the pair when either raw rectangle contains the other
(containment exception), when the finger area of the subject rectangle has
no positive-area intersection with the neighbor rectangle, or when the
subject rectangle's own area is zero (undefined ratio, treated as
non-failing).  Otherwise emits the scored record; `passed` compares the
ratio against `CUTOFF`. -/
def getRectOverlapResult (fingerSize : ℚ) (subjectSnippet neighborSnippet : String)
    (ra rb : Rect) : Option TapTargetFailure :=
  if contains ra rb || contains rb ra then
    none
  else
    match intersect (fingerArea fingerSize ra) rb with
    | none => none
    | some inter =>
      let tapTargetScore := ra.width * ra.height
      if tapTargetScore = 0 then
        none
      else
        let overlappingTargetScore := inter.width * inter.height
        let ratio := overlappingTargetScore / tapTargetScore
        some { tapTargetSnippet := subjectSnippet
               overlappingTargetSnippet := neighborSnippet
               size := sizeStr ra.width ra.height
               tapTargetScore := tapTargetScore
               overlappingTargetScore := overlappingTargetScore
               overlapScoreRatio := ratio
               width := ra.width
               height := ra.height
               passed := decide (ratio ≤ CUTOFF) }

/-- Modelled from the spec: every scored candidate over every ordered pair
of distinct targets (by position in the input list) and every combination
of their client rectangles, tagged with the subject target's index, in
first-discovery order. -/
def allRectResults (fingerSize : ℚ) (targets : List TapTarget) :
    List (ℕ × TapTargetFailure) :=
  targets.enum.flatMap fun p =>
    targets.enum.flatMap fun q =>
      if p.1 = q.1 then []
      else
        p.2.clientRects.flatMap fun ra =>
          q.2.clientRects.filterMap fun rb =>
            (getRectOverlapResult fingerSize p.2.snippet q.2.snippet ra rb).map
              fun res => (p.1, res)

/-- The audit's result surface, with the fields the test file reads:
`rawValue` (overall boolean verdict), `score` in `[0,1]`, and the ordered
failing records of `details.items`. -/
structure AuditResult where
  rawValue : Bool
  score : ℚ
  items : List TapTargetFailure
deriving DecidableEq, Repr

/-- Modelled from the spec: the aggregator.  Failures are the candidates
whose `passed` flag is false, in first-discovery order; the verdict is
"no failures"; the score is the fraction of tap targets (those with at
least one client rectangle) that appear as subject in zero failing pairs,
with an empty input scoring 1. -/
def audit (fingerSize : ℚ) (targets : List TapTarget) : AuditResult :=
  let failures := (allRectResults fingerSize targets).filter fun pr => !pr.2.passed
  let validCount := (targets.filter fun t => !t.clientRects.isEmpty).length
  let nonFailingCount :=
    (targets.enum.filter fun p =>
      !p.2.clientRects.isEmpty && !(failures.any fun pr => pr.1 == p.1)).length
  { rawValue := failures.isEmpty
    score := if validCount = 0 then 1 else (nonFailingCount : ℚ) / (validCount : ℚ)
    items := failures.map fun pr => pr.2 }

/-- Modelled from the spec: the exported finger-size constant.  Its exact
numeric value is not observable from the excerpt (only its role relative to
the 10 px test rectangles); it is fixed here at the concrete default 48
device pixels.  Every general theorem below is stated for an arbitrary
finger size. -/
def FINGER_SIZE_PX : ℚ := 48

/-- The audit as the test file invokes it, at the exported finger size. -/
def auditTapTargets (targets : List TapTarget) : AuditResult :=
  audit FINGER_SIZE_PX targets

/- From here on, direct translations of the test file. -/

/-- Test file: the side length of every constructed tap-target rectangle. -/
def tapTargetSize : ℚ := 10

/-- Test file: the gap reduction at which the finger area first reaches the
neighbor: `(FINGER_SIZE_PX - tapTargetSize) / 2`, stated for an arbitrary
finger size. -/
def minimalOverlapCausingDistance (fingerSize : ℚ) : ℚ :=
  (fingerSize - tapTargetSize) / 2

/-- Test file: 3 px of finger overlap, giving a 10x3 = 30 px² intersection,
30% of the tap target's own score, against the 25% failure cutoff. -/
def pxOverlappedByFinger : ℚ := 3

/-- Test file: `minimalOverlapCausingDistance + pxOverlappedByFinger`. -/
def minimalFailingOverlapDistance (fingerSize : ℚ) : ℚ :=
  minimalOverlapCausingDistance fingerSize + pxOverlappedByFinger

/-- Test file: `makeClientRects({x, y})`, a `tapTargetSize`-sided square at
`(x, y)`. -/
def makeClientRects (x y : ℚ) : Rect :=
  { left := x
    top := y
    width := tapTargetSize
    height := tapTargetSize
    bottom := y + tapTargetSize
    right := x + tapTargetSize }

/-- Test file: the options object accepted by `getBorderlineTapTargets`. -/
structure BorderlineOptions where
  failRight : Bool := false
  failBelow : Bool := false
  addFullyContainedTapTarget : Bool := false
  failSecondClientRect : Bool := false
deriving DecidableEq, Repr

/-- Test file: `getBorderlineTapTargets(options)`, stated for an arbitrary
finger size.  A main target at the origin, one target a finger-size below,
one a finger-size to the right; `failRight`/`failBelow` shift the left/right
(resp. top/bottom) edges of the corresponding target back by
`minimalFailingOverlapDistance`; `addFullyContainedTapTarget` appends a
target coinciding with the main rectangle; `failSecondClientRect` gives the
main target a second rectangle shifted down by the same distance. -/
def getBorderlineTapTargets (fingerSize : ℚ) (options : BorderlineOptions) :
    List TapTarget :=
  let mainRect := makeClientRects 0 0
  let overlapAmount := minimalFailingOverlapDistance fingerSize
  let rightRect0 := makeClientRects (mainRect.left + fingerSize) 0
  let rightRect :=
    if options.failRight then
      { rightRect0 with
          left := rightRect0.left - overlapAmount
          right := rightRect0.right - overlapAmount }
    else rightRect0
  let belowRect0 := makeClientRects 0 (mainRect.top + fingerSize)
  let belowRect :=
    if options.failBelow then
      { belowRect0 with
          top := belowRect0.top - overlapAmount
          bottom := belowRect0.bottom - overlapAmount }
    else belowRect0
  let mainRects :=
    if options.failSecondClientRect then [mainRect, makeClientRects 0 overlapAmount]
    else [mainRect]
  let base : List TapTarget :=
    [ { snippet := "<main></main>", clientRects := mainRects }
    , { snippet := "<below></below>", clientRects := [belowRect] }
    , { snippet := "<right></right>", clientRects := [rightRect] } ]
  if options.addFullyContainedTapTarget then
    base ++ [{ snippet := "<contained></contained>", clientRects := [makeClientRects 0 0] }]
  else base

/-- JavaScript's `Math.round` on a non-negative rational, as the test file
applies it to `score * 100`. -/
def roundQ (q : ℚ) : ℤ := ⌊q + 1 / 2⌋

/-- Claim C1: in the horizontal-overlap scenario (two 10x10 rectangles in
the same row, gap shrunk so the left target's finger area reaches 3 px into
the right target across its full height), the audit fails overall and its
first failing record carries subject score 100, intersection score 30,
ratio 3/10, `passed = false`, size string "10x10" and raw width and
height 10. -/
theorem horizontal_overlap_failing_record :
    (auditTapTargets (getBorderlineTapTargets FINGER_SIZE_PX { failRight := true })).rawValue
        = false
    ∧ (auditTapTargets (getBorderlineTapTargets FINGER_SIZE_PX { failRight := true })).items.head?
        = some { tapTargetSnippet := "<main></main>"
                 overlappingTargetSnippet := "<right></right>"
                 size := "10x10"
                 tapTargetScore := 100
                 overlappingTargetScore := 30
                 overlapScoreRatio := 3 / 10
                 width := 10
                 height := 10
                 passed := false } :=
  of_decide_eq_true (by with_unfolding_all rfl)

/-- Claim C4: when the main target is overlapped past the cutoff both
horizontally and vertically, the audit reports exactly 4 directional
failure records, and the score is 0 (so `score * 100` rounds to 0),
because every target appears as subject in some failing pair. -/
theorem double_overlap_reports_four_items :
    (auditTapTargets
        (getBorderlineTapTargets FINGER_SIZE_PX
          { failRight := true, failBelow := true })).items.length = 4
    ∧ (auditTapTargets
        (getBorderlineTapTargets FINGER_SIZE_PX
          { failRight := true, failBelow := true })).score = 0
    ∧ roundQ (100 * (auditTapTargets
        (getBorderlineTapTargets FINGER_SIZE_PX
          { failRight := true, failBelow := true })).score) = 0 :=
  of_decide_eq_true (by with_unfolding_all rfl)

/-- Claim C5: in the horizontal-overlap scenario there are three tap
targets, exactly two of them appear as subject in some failing pair, and
the score is the fraction of non-failing subjects: 1/3, which rounds to
33%. -/
theorem score_fraction_of_non_failing_subjects :
    (getBorderlineTapTargets FINGER_SIZE_PX { failRight := true }).length = 3
    ∧ ((getBorderlineTapTargets FINGER_SIZE_PX { failRight := true }).enum.filter fun p =>
          ((allRectResults FINGER_SIZE_PX
              (getBorderlineTapTargets FINGER_SIZE_PX { failRight := true })).filter fun pr =>
            !pr.2.passed).any fun pr => pr.1 == p.1).length = 2
    ∧ (auditTapTargets (getBorderlineTapTargets FINGER_SIZE_PX { failRight := true })).score
        = (3 - 2) / 3
    ∧ (auditTapTargets (getBorderlineTapTargets FINGER_SIZE_PX { failRight := true })).score
        = 1 / 3
    ∧ roundQ (100 * (auditTapTargets
        (getBorderlineTapTargets FINGER_SIZE_PX { failRight := true })).score) = 33 :=
  of_decide_eq_true (by with_unfolding_all rfl)

/-- Claim C6: a target with two client rectangles where only the second
rectangle overlaps a neighbor still makes the audit fail, even though the
same geometry without the second rectangle (the default borderline layout)
passes. -/
theorem second_client_rect_overlap_fails :
    (auditTapTargets
        (getBorderlineTapTargets FINGER_SIZE_PX { failSecondClientRect := true })).rawValue
        = false
    ∧ (auditTapTargets (getBorderlineTapTargets FINGER_SIZE_PX {})).rawValue = true :=
  of_decide_eq_true (by with_unfolding_all rfl)

/-- Claim C7: on an empty tap-target list the audit passes with score
exactly 1 and an empty failures list. -/
theorem empty_input_passes :
    auditTapTargets [] = { rawValue := true, score := 1, items := [] } :=
  of_decide_eq_true (by with_unfolding_all rfl)

/-- Claim C2: every candidate record emitted for an ordered rectangle pair
has nonzero subject area equal to the subject rectangle's own
width x height, carries the ratio intersection-score / subject-score, and
its pass flag holds exactly when that ratio is at most the 1/4 cutoff;
a ratio strictly above the cutoff makes the pair fail. -/
theorem pair_passed_iff_ratio_le_cutoff (fingerSize : ℚ) (s1 s2 : String)
    (ra rb : Rect) (res : TapTargetFailure)
    (h : getRectOverlapResult fingerSize s1 s2 ra rb = some res) :
    res.tapTargetScore = ra.width * ra.height
    ∧ res.tapTargetScore ≠ 0
    ∧ res.overlapScoreRatio = res.overlappingTargetScore / res.tapTargetScore
    ∧ (res.passed = true ↔ res.overlapScoreRatio ≤ CUTOFF)
    ∧ (CUTOFF < res.overlapScoreRatio → res.passed = false) := by
  unfold getRectOverlapResult at h
  split at h
  · exact absurd h (by simp)
  · split at h
    · exact absurd h (by simp)
    · dsimp only at h
      split at h
      · exact absurd h (by simp)
      · next hz =>
        obtain rfl := Option.some.inj h
        refine ⟨rfl, hz, rfl, by simp, fun hlt => decide_eq_false (not_le.mpr hlt)⟩

/-- The record C2's witness instantiates: the main target's rectangle
against the shifted right-hand rectangle of the horizontal-overlap
scenario. -/
def mainRightFailure : TapTargetFailure :=
  { tapTargetSnippet := "<main></main>"
    overlappingTargetSnippet := "<right></right>"
    size := "10x10"
    tapTargetScore := 100
    overlappingTargetScore := 30
    overlapScoreRatio := 3 / 10
    width := 10
    height := 10
    passed := false }

/-- Witness for C2 at the concrete horizontal-overlap rectangle pair. -/
theorem pair_passed_iff_ratio_le_cutoff_witness :
    getRectOverlapResult FINGER_SIZE_PX "<main></main>" "<right></right>"
        (makeClientRects 0 0) (makeClientRects 26 0) = some mainRightFailure
    ∧ (mainRightFailure.tapTargetScore
          = (makeClientRects 0 0).width * (makeClientRects 0 0).height
       ∧ mainRightFailure.tapTargetScore ≠ 0
       ∧ mainRightFailure.overlapScoreRatio
          = mainRightFailure.overlappingTargetScore / mainRightFailure.tapTargetScore
       ∧ (mainRightFailure.passed = true ↔ mainRightFailure.overlapScoreRatio ≤ CUTOFF)
       ∧ (CUTOFF < mainRightFailure.overlapScoreRatio → mainRightFailure.passed = false)) :=
  ⟨of_decide_eq_true (by with_unfolding_all rfl),
   pair_passed_iff_ratio_le_cutoff FINGER_SIZE_PX "<main></main>" "<right></right>"
     (makeClientRects 0 0) (makeClientRects 26 0) mainRightFailure
     (of_decide_eq_true (by with_unfolding_all rfl))⟩

/-- Claim C3: when one compared rectangle contains or exactly coincides
with the other, the detector emits nothing for that rectangle pair (in
either direction the hypothesis covers), and concretely, adding a target
whose rectangle exactly coincides with the main target's rectangle leaves
the overall audit verdict true. -/
theorem containment_never_emitted (fingerSize : ℚ) (s1 s2 : String) (ra rb : Rect)
    (h : contains ra rb = true ∨ contains rb ra = true) :
    getRectOverlapResult fingerSize s1 s2 ra rb = none
    ∧ (auditTapTargets (getBorderlineTapTargets FINGER_SIZE_PX
        { addFullyContainedTapTarget := true })).rawValue = true := by
  constructor
  · rcases h with h | h <;> simp [getRectOverlapResult, h]
  · exact of_decide_eq_true (by with_unfolding_all rfl)

/-- Witness for C3 at two exactly coinciding rectangles. -/
theorem containment_never_emitted_witness :
    (contains (makeClientRects 0 0) (makeClientRects 0 0) = true
      ∨ contains (makeClientRects 0 0) (makeClientRects 0 0) = true)
    ∧ (getRectOverlapResult FINGER_SIZE_PX "<main></main>" "<contained></contained>"
          (makeClientRects 0 0) (makeClientRects 0 0) = none
       ∧ (auditTapTargets (getBorderlineTapTargets FINGER_SIZE_PX
            { addFullyContainedTapTarget := true })).rawValue = true) :=
  ⟨Or.inl (of_decide_eq_true (by with_unfolding_all rfl)),
   containment_never_emitted FINGER_SIZE_PX "<main></main>" "<contained></contained>"
     (makeClientRects 0 0) (makeClientRects 0 0)
     (Or.inl (of_decide_eq_true (by with_unfolding_all rfl)))⟩

/-- Claim C10: the audit is a pure function of its input: two runs on the
same immutable target list yield identical results, with no hidden state,
time, or randomness. -/
theorem audit_deterministic (fingerSize : ℚ) (targets : List TapTarget)
    (r1 r2 : AuditResult)
    (h1 : r1 = audit fingerSize targets) (h2 : r2 = audit fingerSize targets) :
    r1 = r2 :=
  h1.trans h2.symm

/-- Witness for C10: two runs on the empty input coincide. -/
theorem audit_deterministic_witness :
    auditTapTargets [] = auditTapTargets [] :=
  audit_deterministic FINGER_SIZE_PX [] (auditTapTargets []) (auditTapTargets []) rfl rfl

/-- Geometric separation of a target list: for every ordered pair of
targets at distinct positions and every combination of their client
rectangles, the finger area of the first rectangle has no positive-area
intersection with the second rectangle. -/
def noFingerOverlap (fingerSize : ℚ) (targets : List TapTarget) : Bool :=
  targets.enum.all fun p =>
    targets.enum.all fun q =>
      p.1 == q.1 ||
        p.2.clientRects.all fun ra =>
          q.2.clientRects.all fun rb =>
            (intersect (fingerArea fingerSize ra) rb).isNone

/-- Claim C9: whenever the targets are spaced so that no finger area
intersects a rectangle of another target with positive area, the audit
passes with an empty failures list. -/
theorem separated_targets_audit_passes (fingerSize : ℚ) (targets : List TapTarget)
    (h : noFingerOverlap fingerSize targets = true) :
    (audit fingerSize targets).rawValue = true
    ∧ (audit fingerSize targets).items = [] := by
  have hall : allRectResults fingerSize targets = [] := by
    rw [List.eq_nil_iff_forall_not_mem]
    intro x hx
    unfold allRectResults at hx
    simp only [List.mem_flatMap] at hx
    obtain ⟨p, hp, q, hq, hx⟩ := hx
    unfold noFingerOverlap at h
    simp only [List.all_eq_true] at h
    have h2 := h p hp q hq
    rw [Bool.or_eq_true] at h2
    by_cases hpq : p.1 = q.1
    · rw [if_pos hpq] at hx
      exact List.not_mem_nil x hx
    · rw [if_neg hpq] at hx
      simp only [List.mem_flatMap, List.mem_filterMap] at hx
      obtain ⟨ra, hra, rb, hrb, hres⟩ := hx
      rcases h2 with h2 | h2
      · exact hpq (by simpa using h2)
      · simp only [List.all_eq_true] at h2
        have h3 := h2 ra hra rb hrb
        rw [Option.isNone_iff_eq_none] at h3
        unfold getRectOverlapResult at hres
        rw [h3] at hres
        revert hres
        split <;> simp
  constructor
  · simp [audit, hall]
  · simp [audit, hall]

/-- Witness for C9: the default borderline layout (no option set) is
geometrically separated, and the audit passes on it. -/
theorem separated_targets_audit_passes_witness :
    noFingerOverlap FINGER_SIZE_PX (getBorderlineTapTargets FINGER_SIZE_PX {}) = true
    ∧ ((audit FINGER_SIZE_PX (getBorderlineTapTargets FINGER_SIZE_PX {})).rawValue = true
       ∧ (audit FINGER_SIZE_PX (getBorderlineTapTargets FINGER_SIZE_PX {})).items = []) :=
  ⟨of_decide_eq_true (by with_unfolding_all rfl),
   separated_targets_audit_passes FINGER_SIZE_PX (getBorderlineTapTargets FINGER_SIZE_PX {})
     (of_decide_eq_true (by with_unfolding_all rfl))⟩

/-- Reflection of a rectangle across the main diagonal: the 90-degree
rotation of the geometry used to relate the horizontal and vertical
overlap scenarios (x and y roles swapped). -/
def transposeRect (r : Rect) : Rect :=
  { left := r.top
    top := r.left
    width := r.height
    height := r.width
    bottom := r.right
    right := r.bottom }

/-- A tap target with all its client rectangles transposed. -/
def transposeTarget (t : TapTarget) : TapTarget :=
  { snippet := t.snippet, clientRects := t.clientRects.map transposeRect }

/-- The effect of transposing the geometry on a failure record: the raw
width and height (and the size string) swap, every score is unchanged. -/
def transposeFailure (res : TapTargetFailure) : TapTargetFailure :=
  { res with
      size := sizeStr res.height res.width
      width := res.height
      height := res.width }

theorem contains_transpose (a b : Rect) :
    contains (transposeRect a) (transposeRect b) = contains a b := by
  simp only [contains, transposeRect]
  rw [decide_eq_decide]
  tauto

theorem fingerArea_transpose (fingerSize : ℚ) (r : Rect) :
    fingerArea fingerSize (transposeRect r) = transposeRect (fingerArea fingerSize r) := rfl

theorem intersect_transpose (a b : Rect) :
    intersect (transposeRect a) (transposeRect b) = (intersect a b).map transposeRect := by
  simp only [intersect, transposeRect]
  by_cases h : max a.left b.left < min a.right b.right ∧ max a.top b.top < min a.bottom b.bottom
  · rw [if_pos ⟨h.2, h.1⟩, if_pos h]
    rfl
  · rw [if_neg (fun hc => h ⟨hc.2, hc.1⟩), if_neg h]
    rfl

theorem getRectOverlapResult_transpose (fingerSize : ℚ) (s1 s2 : String) (ra rb : Rect) :
    getRectOverlapResult fingerSize s1 s2 (transposeRect ra) (transposeRect rb)
      = (getRectOverlapResult fingerSize s1 s2 ra rb).map transposeFailure := by
  unfold getRectOverlapResult
  rw [contains_transpose, contains_transpose, fingerArea_transpose, intersect_transpose]
  by_cases hc : (contains ra rb || contains rb ra) = true
  · rw [if_pos hc, if_pos hc]
    rfl
  · rw [if_neg hc, if_neg hc]
    cases hi : intersect (fingerArea fingerSize ra) rb with
    | none => rfl
    | some inter =>
      simp only [Option.map_some']
      by_cases hz : ra.width * ra.height = 0
      · rw [if_pos (by simpa [transposeRect, mul_comm] using hz), if_pos hz]
        rfl
      · rw [if_neg (by simpa [transposeRect, mul_comm] using hz), if_neg hz]
        simp [transposeFailure, transposeRect, sizeStr, mul_comm]

theorem allRectResults_transpose (fingerSize : ℚ) (targets : List TapTarget) :
    allRectResults fingerSize (targets.map transposeTarget)
      = (allRectResults fingerSize targets).map fun pr => (pr.1, transposeFailure pr.2) := by
  unfold allRectResults
  rw [List.enum_map]
  rw [List.flatMap_map, List.map_flatMap]
  refine congrArg _ (funext fun p => ?_)
  rw [List.flatMap_map, List.map_flatMap]
  refine congrArg _ (funext fun q => ?_)
  by_cases hpq : p.1 = q.1
  · simp [Prod.map, hpq]
  · simp [Prod.map, hpq, transposeTarget, List.flatMap_map, List.map_flatMap,
          List.filterMap_map, List.map_filterMap, getRectOverlapResult_transpose,
          Option.map_map, Function.comp_def]

theorem isEmpty_map_eq {α β : Type} (f : α → β) (l : List α) :
    (l.map f).isEmpty = l.isEmpty := by
  cases l <;> rfl

/-- Claim C8: the audit verdict is invariant under a 90-degree rotation
(transposition) of all target geometry, with the same number of reported
failing records; concretely, both the rotated horizontal-failure scenario
and the test file's vertical-overlap scenario yield an overall verdict of
false. -/
theorem vertical_overlap_symmetric (fingerSize : ℚ) (targets : List TapTarget) :
    (audit fingerSize (targets.map transposeTarget)).rawValue
        = (audit fingerSize targets).rawValue
    ∧ (audit fingerSize (targets.map transposeTarget)).items.length
        = (audit fingerSize targets).items.length
    ∧ (auditTapTargets ((getBorderlineTapTargets FINGER_SIZE_PX { failRight := true }).map
          transposeTarget)).rawValue = false
    ∧ (auditTapTargets (getBorderlineTapTargets FINGER_SIZE_PX { failBelow := true })).rawValue
        = false := by
  refine ⟨?_, ?_, of_decide_eq_true (by with_unfolding_all rfl),
          of_decide_eq_true (by with_unfolding_all rfl)⟩
  · simp [audit, allRectResults_transpose, List.filter_map, Function.comp_def,
          transposeFailure, isEmpty_map_eq]
  · simp [audit, allRectResults_transpose, List.filter_map, Function.comp_def,
          transposeFailure, List.length_map]
